import Mathlib

/- Verification of the position lifecycle engine of the Paulie trading bot.
   Shallow embedding of src/trading.py, src/sniper.py and src/btc_adaptive.py:
   prices and amounts are rationals, timestamps are integers, and every external
   call (gateway, price feed, market discovery) is an explicit input to the
   step functions. Side effects are collected as an Action list in program
   order; Telegram notifications, Google Sheets header formatting and the
   in-memory decision log are presentation-only and are not modeled. -/

namespace Paulie

/-- Kernel-computable floor on the rationals; ifloor_eq below identifies it
    with the Int.floor of Mathlib. -/
def ifloor (q : ℚ) : ℤ := q.num / q.den

/-- Kernel-computable ceiling on the rationals; iceil_eq below identifies it
    with the Int.ceil of Mathlib. -/
def iceil (q : ℚ) : ℤ := -((-q).num / (-q).den)

/-- Python round(x, 2) on the values appearing here: round half up (see
    round2_eq below for the identification with the Mathlib round). Python
    rounds the binary double half-to-even, which agrees away from half-cent
    ties, and no quantity in this development sits on a tie. -/
def round2 (x : ℚ) : ℚ := ((ifloor (x * 100 + 1 / 2) : ℤ) : ℚ) / 100

/-- Python round(x, 4), used by _save_config for total_pnl. -/
def round4 (x : ℚ) : ℚ := ((ifloor (x * 10000 + 1 / 2) : ℤ) : ℚ) / 10000

/-- math.ceil(x * 100) / 100: round up to the next 0.01. -/
def ceil100 (x : ℚ) : ℚ := ((iceil (x * 100) : ℤ) : ℚ) / 100

/-- Python str.lower() (ASCII, which is all that appears here): mapped
    characterwise so that it reduces in the kernel and under simp. -/
def pyLower (s : String) : String := String.mk (s.data.map Char.toLower)

/-- Python str.strip(): drop leading and trailing whitespace. -/
def pyStrip (s : String) : String :=
  String.mk (((s.data.dropWhile Char.isWhitespace).reverse.dropWhile Char.isWhitespace).reverse)

/-- The order a successful place_limit_buy posts: tick-rounded price and the
    computed share count. -/
structure OrderResult where
  price : ℚ
  size : ℚ
  deriving Repr, DecidableEq

/-- Share sizing of place_limit_buy (src/trading.py lines 199-213). The size is
    computed from the UNROUNDED requested price: 1.05 times the target spend
    divided by price, rounded up to the next 0.01 share, bumped so that
    size * price is at least 1.05, then floored at the 5-share minimum. -/
def place_limit_buy_size (price amount_usdc : ℚ) : ℚ :=
  let size := ceil100 (amount_usdc * (105 / 100) / price)
  let size := if size * price < 105 / 100 then ceil100 ((105 / 100) / price) else size
  if size < 5 then 5 else size

/-- Pure core of place_limit_buy (src/trading.py lines 185-240): compute the
    size, round the price to the 0.01 tick, validate the ROUNDED price and
    return the order that would be posted, or none when validation fails (the
    gateway is then never called). Python raises ZeroDivisionError at price 0
    inside the try and returns None via the except; here division by zero is 0
    and the validation rejects price 0, so the observable result agrees. -/
def place_limit_buy (price amount_usdc : ℚ) : Option OrderResult :=
  let size := place_limit_buy_size price amount_usdc
  let rprice := round2 price
  if rprice ≤ 0 ∨ rprice ≥ 1 then none
  else some { price := rprice, size := size }

/-- External side effects performed by the strategy step functions, recorded in
    program order. logTrade carries the result label and pnl of the row the
    code appends to the completed-trades sheet; saveCfg is a _save_config /
    _save_state call persisting configs and aggregate stats. -/
inductive Action where
  | placeOrder (token_id condition_id : String) (price size : ℚ)
  | cancelOrder (order_id : String)
  | marketSell (token_id : String) (size : ℚ)
  | saveCfg
  | logTrade (result : String) (pnl : ℚ)
  deriving Repr, DecidableEq

/-- SnipeSession dataclass (src/sniper.py lines 178-208): one active sniper on
    a specific market. -/
structure SnipeSession where
  condition_id : String
  token_id : String
  outcome : String
  title : String
  event_slug : String
  entry_price : ℚ
  size_usdc : ℚ
  side : String
  order_id : String := ""
  order_status : String := ""
  fills : ℕ := 0
  total_spent : ℚ := 0
  total_shares : ℚ := 0
  active : Bool := true
  stop_loss_cents : ℤ := 10
  started_at : ℤ := 0
  last_check : ℤ := 0
  error_count : ℕ := 0
  market_end_ts : ℤ := 0
  mid_at_fill : ℚ := 0
  deriving Repr, DecidableEq

/-- AutoSniper dataclass (src/sniper.py lines 211-232): config, aggregate stats
    and the per-market idempotency flags. skipped mirrors the auto._skipped set
    of already-logged skip reasons. -/
structure AutoSniper where
  active : Bool := true
  market_type : String := "15m"
  entry_price : ℚ := 85 / 100
  size_usdc : ℚ := 1
  stop_loss_cents : ℤ := 10
  enter_before_sec : ℤ := 180
  min_btc_move_pct : ℚ := 3 / 100
  wins : ℕ := 0
  losses : ℕ := 0
  total_pnl : ℚ := 0
  total_trades : ℕ := 0
  current_slug : String := ""
  current_cid : String := ""
  current_entered : Bool := false
  started_at : ℤ := 0
  skipped : List String := []
  deriving Repr, DecidableEq

/-- Update to the owning strategy instance aggregate stats performed by one
    step (wins and losses increments, realized pnl added to total_pnl, trade
    count increment). -/
structure StatsDelta where
  wins : ℕ := 0
  losses : ℕ := 0
  trades : ℕ := 0
  pnl : ℚ := 0
  deriving Repr, DecidableEq

/-- The empty stats update. -/
def noDelta : StatsDelta := {}

/-- _check_win (src/sniper.py lines 1234-1241): label-normalizing win test. -/
def check_win (outcome resolution : String) : Bool :=
  let res := pyStrip (pyLower resolution)
  let out := pyStrip (pyLower outcome)
  if (out = "up" ∨ out = "yes") ∧ (res = "up" ∨ res = "yes" ∨ res = "1") then true
  else if (out = "down" ∨ out = "no") ∧ (res = "down" ∨ res = "no" ∨ res = "0") then true
  else false

/-- The fields of the Gamma market-status response that _check_session reads.
    closed is the truthiness test closed in (True, "true", "True", 1, "1")
    evaluated at the boundary; resolution is market.get("resolution", ""). -/
structure GammaMarket where
  closed : Bool
  resolution : String
  deriving Repr, DecidableEq

/-- Outcome of the authoritative market-status query as _check_session uses it
    (src/sniper.py lines 1116-1126): some declared resolution only when the
    query returned a market that is closed with a non-empty resolution. -/
def api_outcome (market : Option GammaMarket) : Option String :=
  match market with
  | some m => if m.closed = true ∧ m.resolution ≠ "" then some m.resolution else none
  | none => none

/-- Direction the settlement kline implies (src/sniper.py lines 1159-1164):
    Up when close is above open, Down when below, Up on an exact tie. -/
def btc_dir (btc_open btc_close : ℚ) : String :=
  if btc_close > btc_open then "Up" else if btc_close < btc_open then "Down" else "Up"

/-- Resolution cascade of _check_session (src/sniper.py lines 1109-1181), as a
    pure function of the time since market end, the market-status response and
    the settlement kline (none models a failed or empty response). Returns the
    declared resolution, the win flag and the evidence source tag resolved_via. -/
inductive Via where
  | api
  | btc
  | timeout
  deriving Repr, DecidableEq

def resolve_session (outcome : String) (time_since_end : ℤ) (market : Option GammaMarket)
    (candle : Option (ℚ × ℚ)) : Option (String × Bool × Via) :=
  let step1 : Option (String × Bool × Via) :=
    match api_outcome market with
    | some r => some (r, check_win outcome r, Via.api)
    | none => none
  let step2 : Option (String × Bool × Via) :=
    match step1 with
    | some r => some r
    | none =>
      if time_since_end > 120 then
        match candle with
        | some oc => some (btc_dir oc.1 oc.2, check_win outcome (btc_dir oc.1 oc.2), Via.btc)
        | none => none
      else none
  match step2 with
  | some r => some r
  | none =>
    if time_since_end > 600 then some (outcome, true, Via.timeout) else none

/-- Inputs of one _check_session step: the clock, the check_order_status
    response (none on error), the midprice fetched at fill, the midprice
    fetched in the stop-loss block, the market-status response and the
    settlement kline (open, close). -/
structure CheckInputs where
  now : ℤ
  status : Option String
  fill_mid : Option ℚ
  mid : Option ℚ
  market : Option GammaMarket
  candle : Option (ℚ × ℚ)
  deriving Repr, DecidableEq

/-- Fill-check block of _check_session (src/sniper.py lines 1022-1052): none
    means the session was deactivated and removed (order cancelled or expired);
    otherwise the possibly fill-updated session. statusLower is the lowercased
    status with a failed query mapped to the empty string. -/
def fill_check (s : SnipeSession) (statusLower : String) (fill_mid : Option ℚ) :
    Option SnipeSession :=
  if s.order_id ≠ "" ∧ s.order_status = "live" then
    if statusLower = "matched" then
      let shares := round2 (s.size_usdc / s.entry_price)
      some { s with
             order_status := "matched"
             fills := s.fills + 1
             total_spent := s.total_spent + s.size_usdc
             total_shares := s.total_shares + shares
             mid_at_fill := fill_mid.getD 0 }
    else if statusLower = "cancelled" ∨ statusLower = "expired" then none
    else some s
  else some s

/-- Stop-loss trigger of _check_session (src/sniper.py lines 1054-1062): some
    mid exactly when the block reaches the market-sell, namely when the session
    is matched with a positive stop distance, the mid at fill was recorded
    positive, the current mid is available and positive, and the drop from the
    mid at fill reaches stop_loss_cents. -/
def stop_fire (s : SnipeSession) (mid : Option ℚ) : Option ℚ :=
  if s.order_status = "matched" ∧ s.stop_loss_cents > 0 ∧ 0 < s.mid_at_fill then
    match mid with
    | some m =>
      if 0 < m ∧ s.mid_at_fill - m ≥ (s.stop_loss_cents : ℚ) / 100 then some m else none
    | none => none
  else none

/-- One _check_session step (src/sniper.py lines 1014-1231): fill check, then
    stop-loss, then resolution, then the cancel of an unfilled order once the
    market end has passed. Returns the surviving session (none when deactivated
    and removed), the stats update applied to the owning sniper (zero when
    _get_sniper_for_session found none, hasSniper = false), and the actions. -/
def check_session (hasSniper : Bool) (s0 : SnipeSession) (inp : CheckInputs) :
    Option SnipeSession × StatsDelta × List Action :=
  let statusLower := pyLower (inp.status.getD "")
  match fill_check s0 statusLower inp.fill_mid with
  | none => (none, noDelta, [])
  | some s =>
    match stop_fire s inp.mid with
    | some m =>
      let pnl := m * s.total_shares - s.total_spent
      (none, if hasSniper then { losses := 1, pnl := pnl } else noDelta,
       Action.marketSell s.token_id s.total_shares ::
         (if hasSniper then [Action.saveCfg] else []) ++ [Action.logTrade "STOP-LOSS" pnl])
    | none =>
      if s.order_status = "matched" ∧ s.market_end_ts > 0 ∧ inp.now - s.market_end_ts > 15 then
        match resolve_session s.outcome (inp.now - s.market_end_ts) inp.market inp.candle with
        | some rwv =>
          let won := rwv.2.1
          let pnl := if won then s.total_shares * 1 - s.total_spent else -s.total_spent
          (none,
           if hasSniper then
             { wins := if won then 1 else 0, losses := if won then 0 else 1, pnl := pnl }
           else noDelta,
           (if hasSniper then [Action.saveCfg] else []) ++
             [Action.logTrade (if won then "WIN" else "LOSS") pnl])
        | none =>
          if s.order_status = "live" ∧ s.market_end_ts > 0 ∧ inp.now > s.market_end_ts then
            (none, noDelta, [Action.cancelOrder s.order_id])
          else (some s, noDelta, [])
      else
        if s.order_status = "live" ∧ s.market_end_ts > 0 ∧ inp.now > s.market_end_ts then
          (none, noDelta, [Action.cancelOrder s.order_id])
        else (some s, noDelta, [])

/-- ActiveTrade dataclass of the adaptive strategy (src/btc_adaptive.py). -/
structure ActiveTrade where
  slug : String
  condition_id : String
  token_id : String
  order_id : String
  order_status : String
  direction : String
  strategy : String
  entry_price : ℚ
  size_usdc : ℚ
  market_end_ts : ℤ
  title : String
  shares : ℚ := 0
  cost : ℚ := 0
  mid_at_fill : ℚ := 0
  deriving Repr, DecidableEq

/-- Inputs of one _check_active_trade step: clock, check_order_status response,
    midprice, the resolution field of the Gamma events response for the trade
    market (none when the request failed or no market matched), and the
    settlement kline (open, close). -/
structure AdaptiveInputs where
  now : ℤ
  status : Option String
  mid : Option ℚ
  apiRes : Option String
  candle : Option (ℚ × ℚ)
  deriving Repr, DecidableEq

/-- Resolution cascade of _check_active_trade (src/btc_adaptive.py lines
    653-696): the Gamma resolution when non-empty, else the kline direction as
    p1 or p2 after 120 seconds, else the literal resolution "timeout" after
    600 seconds, else none (keep waiting). time_since_end is now minus
    market_end_ts. -/
def resolveAdaptive (time_since_end : ℤ) (apiRes : Option String) (candle : Option (ℚ × ℚ)) :
    Option String :=
  let resolution : Option String :=
    match apiRes with
    | some r => if r ≠ "" then some r else none
    | none => none
  let resolution : Option String :=
    match resolution with
    | some r => some r
    | none =>
      if time_since_end > 120 then
        match candle with
        | some oc => some (if oc.2 > oc.1 then "p1" else "p2")
        | none => none
      else none
  match resolution with
  | some r => some r
  | none => if time_since_end > 600 then some "timeout" else none

/-- Win determination of _check_active_trade (src/btc_adaptive.py lines
    698-703): any resolution string outside both recognized groups (including
    the literal "timeout") leaves won false. -/
def adaptiveWon (direction resolution : String) : Bool :=
  if resolution = "p1" ∨ resolution = "Yes" ∨ resolution = "1" then
    direction = "Up"
  else if resolution = "p2" ∨ resolution = "No" ∨ resolution = "0" then
    direction = "Down"
  else false

/-- One _check_active_trade step (src/btc_adaptive.py lines 609-763): fill
    check with a cancel of the unfilled order 30 seconds after market end,
    then the resolution wait, cascade and settlement. Returns the surviving
    trade (none when cleared), the _bot_stats update and the actions; the
    _recent_results adaptive-learning list is display-only and not modeled. -/
def check_active_trade (t : ActiveTrade) (inp : AdaptiveInputs) :
    Option ActiveTrade × StatsDelta × List Action :=
  if t.order_status = "live" then
    let statusLower := pyLower (inp.status.getD "")
    if statusLower = "matched" then
      (some { t with
              order_status := "matched"
              shares := round2 (t.size_usdc / t.entry_price)
              cost := t.size_usdc
              mid_at_fill := inp.mid.getD 0 }, noDelta, [])
    else if inp.now > t.market_end_ts + 30 then
      (none, noDelta, [Action.cancelOrder t.order_id])
    else (some t, noDelta, [])
  else if t.order_status = "matched" then
    if inp.now < t.market_end_ts + 15 then (some t, noDelta, [])
    else
      match resolveAdaptive (inp.now - t.market_end_ts) inp.apiRes inp.candle with
      | none => (some t, noDelta, [])
      | some res =>
        let won := adaptiveWon t.direction res
        let pnl := if won then t.shares * 1 - t.cost else -t.cost
        (none,
         { wins := if won then 1 else 0, losses := if won then 0 else 1, trades := 1, pnl := pnl },
         [Action.saveCfg, Action.logTrade (if won then "WIN" else "LOSS") pnl])
  else (some t, noDelta, [])

/-- One 1-minute Binance candle as the spike detector reads it: high, low,
    volume, number of trades, taker buy volume (indices 2, 3, 5, 8, 9). -/
structure Candle1m where
  high : ℚ := 0
  low : ℚ := 0
  volume : ℚ := 0
  trades : ℚ := 0
  taker_buy_vol : ℚ := 0
  deriving Repr, DecidableEq, Inhabited

/-- Spike / manipulation detection of _run_auto_sniper (src/sniper.py lines
    850-918): volume, trade-count and range ratios of the last 1m candle
    against the previous ones, plus the taker-buy-ratio checks against the
    period direction. candles is the kline response, empty on request failure;
    the block runs only when at least 5 candles came back. -/
def spike_detected (btc_change : ℚ) (candles : List Candle1m) : Bool :=
  if candles.length ≥ 5 then
    let prev := candles.dropLast
    let last := candles.getLastD default
    let avg_volume := if prev ≠ [] then (prev.map (fun c => c.volume)).sum / prev.length else 1
    let avg_trades := if prev ≠ [] then (prev.map (fun c => c.trades)).sum / prev.length else 1
    let last_range := last.high - last.low
    let avg_range :=
      if prev ≠ [] then (prev.map (fun c => c.high - c.low)).sum / prev.length else 1
    let buy_ratio := if last.volume > 0 then last.taker_buy_vol / last.volume else 1 / 2
    let vol_spike := last.volume > avg_volume * 3
    let trades_spike := last.trades > avg_trades * 3
    let range_spike := last_range > avg_range * 4
    decide ((vol_spike ∧ range_spike) ∨ (trades_spike ∧ range_spike) ∨
      (btc_change < 0 ∧ buy_ratio > 7 / 10) ∨ (btc_change > 0 ∧ buy_ratio < 3 / 10))
  else false

/-- What find_live_market returns for the current market (src/sniper.py lines
    403-508). -/
structure LiveMarket where
  slug : String
  condition_id : String
  token_yes : String
  token_no : String
  end_ts : ℤ
  question : String
  deriving Repr, DecidableEq

/-- Inputs of one _run_auto_sniper step: clock, market discovery result,
    Binance spot price, period kline open, previous 1m close (trend check),
    the 1m candles of the spike check, the midprice, and the order id of the
    gateway response to the placed order (none models a failed placement call,
    some "" a response without an orderID). -/
structure TickInputs where
  now : ℤ
  live : Option LiveMarket
  btc_now : Option ℚ
  kline_open : Option ℚ
  prev_1m_close : Option ℚ
  candles_1m : List Candle1m
  mid : Option ℚ
  place_resp : Option String
  deriving Repr, DecidableEq

/-- auto._skipped.add(key) for the once-per-market skip logging. -/
def add_skip (auto : AutoSniper) (key : String) : AutoSniper :=
  if key ∈ auto.skipped then auto else { auto with skipped := auto.skipped ++ [key] }

/-- Market roll-over of _run_auto_sniper (src/sniper.py lines 750-755): on a
    new slug, reset the per-market idempotency state. -/
def roll_market (auto0 : AutoSniper) (slug : String) : AutoSniper :=
  if slug ≠ auto0.current_slug then
    { auto0 with
      current_slug := slug
      current_cid := ""
      current_entered := false
      skipped := [] }
  else auto0

/-- Python dict assignment d[k] = v on the _sessions association list: replace
    in place when the key exists, append otherwise. -/
def dictInsert (k : String) (v : SnipeSession) (d : List (String × SnipeSession)) :
    List (String × SnipeSession) :=
  if d.any (fun p => decide (p.1 = k)) then
    d.map (fun p => if p.1 = k then (k, v) else p)
  else d ++ [(k, v)]

/-- Entry decision of _run_auto_sniper (src/sniper.py lines 764-969): BTC
    price and period-open kline, minimum-move threshold, trend-reversal check,
    spike detection and the midprice momentum check. skip returns the updated
    sniper (skip bookkeeping, and current_entered set on the spike and
    too-expensive burns); enter carries the chosen direction and token. -/
inductive TickDecision where
  | skip (auto : AutoSniper)
  | enter (direction token_id : String)
  deriving Repr, DecidableEq

def sniper_decision (auto : AutoSniper) (live : LiveMarket) (inp : TickInputs) :
    TickDecision :=
  match inp.btc_now with
  | none => TickDecision.skip auto
  | some btc_now =>
    if btc_now = 0 then TickDecision.skip auto
    else
      match inp.kline_open with
      | none => TickDecision.skip auto
      | some btc_open =>
        let btc_change := btc_now - btc_open
        let btc_change_pct := |btc_change / btc_open| * 100
        if btc_change_pct < auto.min_btc_move_pct then
          TickDecision.skip (add_skip auto ("lowmove_" ++ live.slug))
        else
          let reversal : Bool :=
            match inp.prev_1m_close with
            | some prev_close =>
              let recent_move := btc_now - prev_close
              let retracement_pct :=
                if btc_change ≠ 0 then |recent_move / btc_change| * 100 else 0
              decide ((btc_change > 0 ∧ recent_move < 0 ∧ retracement_pct > 50) ∨
                (btc_change < 0 ∧ recent_move > 0 ∧ retracement_pct > 50))
            | none => false
          if reversal = true then
            TickDecision.skip (add_skip auto ("reversal_" ++ live.slug))
          else if spike_detected btc_change inp.candles_1m = true then
            TickDecision.skip
              { add_skip auto ("spike_" ++ live.slug) with current_entered := true }
          else
            let direction := if btc_change > 0 then "Up" else "Down"
            let token_id := if btc_change > 0 then live.token_yes else live.token_no
            if token_id = "" then TickDecision.skip auto
            else
              match inp.mid with
              | some mid =>
                if mid ≠ 0 then
                  if mid > auto.entry_price then
                    TickDecision.skip
                      { add_skip auto ("expensive_" ++ live.slug) with
                        current_entered := true }
                  else if mid < auto.entry_price * (5 / 10) then
                    TickDecision.skip (add_skip auto ("midlow_" ++ live.slug))
                  else TickDecision.enter direction token_id
                else TickDecision.enter direction token_id
              | none => TickDecision.enter direction token_id

/-- Order placement of _run_auto_sniper (src/sniper.py lines 971-997): call
    place_limit_buy (no gateway call and a FAIL return when its validation
    fails); on a response carrying an order id, mark the market entered,
    record the condition id, bump total_trades and store the new session;
    a failed placement call (none, or a response without an order id) is the
    FAIL path, which changes no sniper state. -/
def enter_market (auto : AutoSniper) (sessions : List (String × SnipeSession))
    (live : LiveMarket) (direction token_id : String) (now : ℤ)
    (place_resp : Option String) :
    AutoSniper × List (String × SnipeSession) × List Action :=
  match place_limit_buy auto.entry_price auto.size_usdc with
  | none => (auto, sessions, [])
  | some ord =>
    let acts := [Action.placeOrder token_id live.condition_id ord.price ord.size]
    match place_resp with
    | none => (auto, sessions, acts)
    | some oid =>
      if oid = "" then (auto, sessions, acts)
      else
        let auto2 := { auto with
          current_entered := true
          current_cid := live.condition_id
          total_trades := auto.total_trades + 1 }
        let session : SnipeSession := {
          condition_id := live.condition_id
          token_id := token_id
          outcome := direction
          title := live.question
          event_slug := live.slug
          entry_price := auto.entry_price
          size_usdc := auto.size_usdc
          side := "YES"
          order_id := oid
          order_status := "live"
          active := true
          stop_loss_cents := auto.stop_loss_cents
          started_at := now
          market_end_ts := live.end_ts }
        (auto2, dictInsert live.condition_id session sessions, acts)

/-- One _run_auto_sniper step (src/sniper.py lines 726-1011): market roll-over
    and idempotency guard, entry window, then the entry decision and, on
    enter, the order placement. -/
def run_auto_sniper (auto0 : AutoSniper) (sessions : List (String × SnipeSession))
    (inp : TickInputs) : AutoSniper × List (String × SnipeSession) × List Action :=
  if auto0.active = false then (auto0, sessions, [])
  else
    match inp.live with
    | none => (auto0, sessions, [])
    | some live =>
      let time_left := live.end_ts - inp.now
      if time_left ≤ 0 then
        ({ auto0 with current_slug := "", current_entered := false }, sessions, [])
      else
        let auto := roll_market auto0 live.slug
        if auto.current_entered = true then (auto, sessions, [])
        else if time_left > auto.enter_before_sec then (auto, sessions, [])
        else
          match sniper_decision auto live inp with
          | TickDecision.skip a => (a, sessions, [])
          | TickDecision.enter direction token_id =>
            enter_market auto sessions live direction token_id inp.now inp.place_resp

/-- Concrete auto-sniper freshly started, for the double-entry claims. -/
def autoC1 : AutoSniper :=
  { active := true, market_type := "15m", entry_price := 85 / 100, size_usdc := 1
    stop_loss_cents := 10, enter_before_sec := 180, min_btc_move_pct := 3 / 100
    wins := 0, losses := 0, total_pnl := 0, total_trades := 0
    current_slug := "", current_cid := "", current_entered := false
    started_at := 0, skipped := [] }

/-- Concrete live market for the double-entry claims. -/
def liveC1 : LiveMarket :=
  { slug := "btc-updown-15m-1000", condition_id := "cid1", token_yes := "ty"
    token_no := "tn", end_ts := 1900, question := "q1" }

/-- Concrete tick inputs for the double-entry claims: inside the entry window,
    clear upward BTC move, no reversal, no spike data, no midprice, and a
    placement call that returned None (for example an HTTP timeout after the
    order reached the exchange). -/
def inpC1 : TickInputs :=
  { now := 1800, live := some liveC1, btc_now := some 100000, kline_open := some 99900
    prev_1m_close := some 99950, candles_1m := [], mid := none, place_resp := none }

/-- One row of the sniper_config table as _save_config writes it (src/sniper.py
    lines 603-637): per-instance config and aggregate stats, total_pnl rounded
    to 4 places. No field of any SnipeSession is written. -/
structure SavedConfig where
  market_type : String
  entry_price : ℚ
  size_usdc : ℚ
  stop_loss_cents : ℤ
  enter_before_sec : ℤ
  min_btc_move_pct : ℚ
  wins : ℕ
  losses : ℕ
  total_pnl : ℚ
  total_trades : ℕ
  deriving Repr, DecidableEq

def save_config_row (s : AutoSniper) : SavedConfig :=
  { market_type := s.market_type
    entry_price := s.entry_price
    size_usdc := s.size_usdc
    stop_loss_cents := s.stop_loss_cents
    enter_before_sec := s.enter_before_sec
    min_btc_move_pct := s.min_btc_move_pct
    wins := s.wins
    losses := s.losses
    total_pnl := round4 s.total_pnl
    total_trades := s.total_trades }

/-- _save_config (src/sniper.py lines 603-637): one row per active sniper. -/
def save_config (snipers : List AutoSniper) : List SavedConfig :=
  (snipers.filter (fun s => s.active)).map save_config_row

/-- One restored sniper of load_saved_snipers (src/sniper.py lines 654-670):
    config and stats from the row, runtime fields fresh. -/
def load_sniper (now : ℤ) (cfg : SavedConfig) : AutoSniper :=
  { active := true
    market_type := cfg.market_type
    entry_price := cfg.entry_price
    size_usdc := cfg.size_usdc
    stop_loss_cents := cfg.stop_loss_cents
    enter_before_sec := cfg.enter_before_sec
    min_btc_move_pct := cfg.min_btc_move_pct
    wins := cfg.wins
    losses := cfg.losses
    total_pnl := cfg.total_pnl
    total_trades := cfg.total_trades
    current_slug := ""
    current_cid := ""
    current_entered := false
    started_at := now
    skipped := [] }

/-- load_saved_snipers (src/sniper.py lines 639-677). -/
def load_saved_snipers (now : ℤ) (rows : List SavedConfig) : List AutoSniper :=
  rows.map (load_sniper now)

/-- Concrete active sniper with nonzero stats for the persistence claims. -/
def autoC6 : AutoSniper :=
  { active := true, market_type := "15m", entry_price := 85 / 100, size_usdc := 1
    stop_loss_cents := 10, enter_before_sec := 180, min_btc_move_pct := 3 / 100
    wins := 3, losses := 2, total_pnl := 123 / 1000, total_trades := 5
    current_slug := "btc-updown-15m-1000", current_cid := "cid6", current_entered := true
    started_at := 100, skipped := [] }

/-- Concrete non-terminal (matched, active) session for the persistence
    claims. -/
def sessC6 : SnipeSession :=
  { condition_id := "cid6", token_id := "t6", outcome := "Up", title := "m6", event_slug := "s6"
    entry_price := 85 / 100, size_usdc := 1, side := "YES", order_id := "o6"
    order_status := "matched", fills := 1, total_spent := 1, total_shares := 118 / 100
    active := true, stop_loss_cents := 10, started_at := 0, market_end_ts := 2000
    mid_at_fill := 55 / 100 }

/-- The sniper module state that matters across a restart: the _auto_snipers
    values and the _sessions dict. -/
structure EngineState where
  snipers : List AutoSniper
  sessions : List (String × SnipeSession)
  deriving Repr, DecidableEq

/-- Process restart: sniper_checker restores via load_saved_snipers from the
    rows _save_config wrote; the _sessions dict of the previous process is
    gone (it is never persisted) and no order-status query is made during the
    restore (src/sniper.py lines 639-696). -/
def restart (now : ℤ) (st : EngineState) : EngineState :=
  { snipers := load_saved_snipers now (save_config st.snipers), sessions := [] }

/-- Concrete matched session for the stop-loss claims: limit order placed and
    assumed filled at entry price 0.85, mid price at fill time 0.55. -/
def sessC2 : SnipeSession :=
  { condition_id := "c2", token_id := "t2", outcome := "Up", title := "m2", event_slug := "s2"
    entry_price := 85 / 100, size_usdc := 1, side := "YES", order_id := "o2"
    order_status := "matched", fills := 1, total_spent := 1, total_shares := 118 / 100
    active := true, stop_loss_cents := 10, started_at := 0, market_end_ts := 1000
    mid_at_fill := 55 / 100 }

/-- Inputs for the stop-loss claims: one tick before market end with the given
    current mid price. -/
def inpC2 (m : ℚ) : CheckInputs :=
  { now := 500, status := none, fill_mid := none, mid := some m, market := none, candle := none }

/-- Concrete live (unfilled) session for the entry-timeout claims: entry order
    submitted at time 0 on a market ending at time 2000. -/
def sessC5 : SnipeSession :=
  { condition_id := "c5", token_id := "t5", outcome := "Up", title := "m5", event_slug := "s5"
    entry_price := 85 / 100, size_usdc := 1, side := "YES", order_id := "o5"
    order_status := "live", active := true, stop_loss_cents := 10, started_at := 0
    market_end_ts := 2000 }

/-- Inputs for the entry-timeout claims: order still reported live at the given
    clock. -/
def inpC5 (now : ℤ) : CheckInputs :=
  { now := now, status := some "live", fill_mid := none, mid := none, market := none,
    candle := none }

/-- Concrete live adaptive trade for the entry-timeout claim witness. -/
def tradeC5 : ActiveTrade :=
  { slug := "s5a", condition_id := "c5a", token_id := "t5a", order_id := "o5a"
    order_status := "live", direction := "Up", strategy := "confident"
    entry_price := 85 / 100, size_usdc := 1, market_end_ts := 2000, title := "m5a" }

/-- Concrete live session for the unknown-status claim witness. -/
def sessC9 : SnipeSession :=
  { condition_id := "c9", token_id := "t9", outcome := "Up", title := "m9", event_slug := "s9"
    entry_price := 85 / 100, size_usdc := 1, side := "YES", order_id := "o9"
    order_status := "live", active := true, stop_loss_cents := 10, started_at := 0
    market_end_ts := 2000 }

/-- Concrete matched adaptive trade for the forced-resolution claims: direction
    Up, 1.18 shares costing 1 dollar, market ended at time 1000. -/
def tradeC4 : ActiveTrade :=
  { slug := "s4", condition_id := "c4", token_id := "t4", order_id := "o4"
    order_status := "matched", direction := "Up", strategy := "confident"
    entry_price := 85 / 100, size_usdc := 1, market_end_ts := 1000, title := "m4"
    shares := 118 / 100, cost := 1, mid_at_fill := 1 / 2 }

/-- Concrete matched sniper session for the forced-resolution claim: outcome
    Up, 1.18 shares costing 1 dollar, market ended at time 1000. -/
def sessC4 : SnipeSession :=
  { condition_id := "c4s", token_id := "t4s", outcome := "Up", title := "m4s", event_slug := "s4s"
    entry_price := 85 / 100, size_usdc := 1, side := "YES", order_id := "o4s"
    order_status := "matched", fills := 1, total_spent := 1, total_shares := 118 / 100
    active := true, stop_loss_cents := 10, started_at := 0, market_end_ts := 1000
    mid_at_fill := 55 / 100 }

end Paulie

namespace Paulie

/-- The computable floor agrees with the Mathlib floor. -/
theorem ifloor_eq (q : ℚ) : ifloor q = ⌊q⌋ := Rat.floor_def.symm

/-- The computable ceiling as a negated floor (norm_num evaluates floors). -/
theorem iceil_as_floor (q : ℚ) : iceil q = -⌊-q⌋ := by
  unfold iceil
  rw [← Rat.floor_def]

/-- The computable ceiling agrees with the Mathlib ceiling. -/
theorem iceil_eq (q : ℚ) : iceil q = ⌈q⌉ := by
  rw [iceil_as_floor, Int.floor_neg, neg_neg]

/-- round2 is the tick-rounded value through the Mathlib round. -/
theorem round2_eq (x : ℚ) : round2 x = ((round (x * 100) : ℤ) : ℚ) / 100 := by
  unfold round2
  rw [ifloor_eq, round_eq]

/-- ceil100 through the Mathlib ceiling. -/
theorem ceil100_eq (x : ℚ) : ceil100 x = ((Int.ceil (x * 100) : ℤ) : ℚ) / 100 := by
  unfold ceil100
  rw [iceil_eq]

/-- Round-to-2-places is monotone. -/
theorem round2_mono {x y : ℚ} (h : x ≤ y) : round2 x ≤ round2 y := by
  rw [round2_eq, round2_eq]
  have h1 : round (x * 100) ≤ round (y * 100) := by
    rw [round_eq, round_eq]
    exact Int.floor_mono (by linarith)
  have h2 : ((round (x * 100) : ℤ) : ℚ) ≤ ((round (y * 100) : ℤ) : ℚ) := by
    exact_mod_cast h1
  linarith

/-- Rounding up to the next 0.01 never decreases the value. -/
theorem le_ceil100 (x : ℚ) : x ≤ ceil100 x := by
  rw [ceil100_eq]
  rw [le_div_iff₀ (by norm_num : (0:ℚ) < 100)]
  exact Int.le_ceil (x * 100)

/-- A price on the 0.01 tick is its own rounding. -/
theorem round2_tick (k : ℕ) : round2 ((k : ℚ) / 100) = (k : ℚ) / 100 := by
  rw [round2_eq]
  rw [div_mul_cancel₀ _ (by norm_num : (100 : ℚ) ≠ 0)]
  rw [round_natCast]
  norm_num

/-- Size guarantees of place_limit_buy_size at a positive price and nonnegative
    spend: the size dominates the rounded-up 1.05-scaled spend over price, the
    notional covers 1.05 times the spend and the 1.05-dollar minimum, the
    5-share floor holds, and the notional strictly exceeds the spend. -/
theorem place_limit_buy_size_spec (p a : ℚ) (hp : 0 < p) (ha : 0 ≤ a) :
    ceil100 (a * (105 / 100) / p) ≤ place_limit_buy_size p a ∧
    (105 / 100) * a ≤ place_limit_buy_size p a * p ∧
    (105 / 100 : ℚ) ≤ place_limit_buy_size p a * p ∧
    (5 : ℚ) ≤ place_limit_buy_size p a ∧
    a < place_limit_buy_size p a * p := by
  have hys : ∀ s : ℚ, s ≤ (if s < 5 then (5 : ℚ) else s) := by
    intro s
    split
    · linarith
    · linarith
  have h5 : ∀ s : ℚ, (5 : ℚ) ≤ (if s < 5 then (5 : ℚ) else s) := by
    intro s
    split
    · linarith
    · linarith
  have key : ceil100 (a * (105 / 100) / p) ≤ place_limit_buy_size p a ∧
      (105 / 100) * a ≤ place_limit_buy_size p a * p ∧
      (105 / 100 : ℚ) ≤ place_limit_buy_size p a * p ∧
      (5 : ℚ) ≤ place_limit_buy_size p a := by
    unfold place_limit_buy_size
    have hs1 : a * (105 / 100) / p ≤ ceil100 (a * (105 / 100) / p) := le_ceil100 _
    have hs1p : (105 / 100) * a ≤ ceil100 (a * (105 / 100) / p) * p := by
      have := mul_le_mul_of_nonneg_right hs1 hp.le
      rw [div_mul_cancel₀ _ hp.ne.symm] at this
      linarith
    by_cases hb : ceil100 (a * (105 / 100) / p) * p < 105 / 100
    · simp only [hb, if_true]
      have h2 : (105 / 100 : ℚ) / p ≤ ceil100 ((105 / 100) / p) := le_ceil100 _
      have h2p : (105 / 100 : ℚ) ≤ ceil100 ((105 / 100) / p) * p := by
        have := mul_le_mul_of_nonneg_right h2 hp.le
        rw [div_mul_cancel₀ _ hp.ne.symm] at this
        linarith
      have h12 : ceil100 (a * (105 / 100) / p) ≤ ceil100 ((105 / 100) / p) := by
        have hlt : ceil100 (a * (105 / 100) / p) < (105 / 100) / p :=
          (lt_div_iff₀ hp).mpr hb
        linarith
      refine ⟨le_trans h12 (hys _), ?_, ?_, h5 _⟩
      · have := mul_le_mul_of_nonneg_right (hys (ceil100 ((105 / 100) / p))) hp.le
        nlinarith
      · have := mul_le_mul_of_nonneg_right (hys (ceil100 ((105 / 100) / p))) hp.le
        linarith
    · simp only [hb, if_false]
      push_neg at hb
      have := mul_le_mul_of_nonneg_right (hys (ceil100 (a * (105 / 100) / p))) hp.le
      exact ⟨hys _, by linarith, by linarith, h5 _⟩
  refine ⟨key.1, key.2.1, key.2.2.1, key.2.2.2, ?_⟩
  rcases ha.eq_or_lt with h0 | h0
  · have := key.2.2.1
    linarith [h0]
  · have := key.2.1
    nlinarith

/-- C7: sizing a buy with target spend 1 dollar at price 0.40 under the 5-share
    minimum and 0.01 tick yields an order of exactly 5 shares at price 0.40,
    whose actual notional 5 * 0.40 is 2 dollars: the minimum-share floor
    dominates, as claimed. -/
theorem c7_sizing_example :
    place_limit_buy (40 / 100) 1 = some { price := 40 / 100, size := 5 } ∧
    (5 : ℚ) * (40 / 100) = 2 := by
  refine ⟨by norm_num [place_limit_buy, place_limit_buy_size, ceil100, round2, ifloor_eq, iceil_as_floor], by norm_num⟩

/-- C8 counterexample: the price 0.004 lies strictly inside (0, 1), yet
    place_limit_buy rejects it and returns none, because the validation tests
    the tick-rounded price, which is 0.00 here. -/
theorem c8_counterexample :
    (0 : ℚ) < 1 / 250 ∧ (1 / 250 : ℚ) < 1 ∧ place_limit_buy (1 / 250) 1 = none := by
  refine ⟨by norm_num, by norm_num, by norm_num [place_limit_buy, place_limit_buy_size, ceil100, round2, ifloor_eq, iceil_as_floor]⟩

/-- C8 amended: place_limit_buy validates the TICK-ROUNDED order price: it
    fails (returns none, never calling the gateway) exactly when the rounded
    price is ≤ 0 or ≥ 1, and every requested price between 0.01 and 0.99
    inclusive passes validation and is submitted at its rounded price with the
    computed size. -/
theorem c8_amended :
    (∀ p a : ℚ, place_limit_buy p a = none ↔ round2 p ≤ 0 ∨ round2 p ≥ 1) ∧
    (∀ p a : ℚ, 1 / 100 ≤ p → p ≤ 99 / 100 →
      place_limit_buy p a = some { price := round2 p, size := place_limit_buy_size p a }) := by
  constructor
  · intro p a
    by_cases h : round2 p ≤ 0 ∨ round2 p ≥ 1
    · simp [place_limit_buy, h]
    · simp [place_limit_buy, h]
  · intro p a hp hq
    have e1 : round2 (1 / 100 : ℚ) = 1 / 100 := by norm_num [round2, ifloor_eq]
    have e2 : round2 (99 / 100 : ℚ) = 99 / 100 := by norm_num [round2, ifloor_eq]
    have h1 := round2_mono hp
    have h2 := round2_mono hq
    rw [e1] at h1
    rw [e2] at h2
    have hno : ¬(round2 p ≤ 0 ∨ round2 p ≥ 1) := by
      push_neg
      constructor <;> linarith
    simp [place_limit_buy, hno]

/-- C8 witness: the amended theorem applied at the concrete price 0.5 and
    spend 1 dollar, where the submitted order is 5 shares at 0.50. -/
theorem c8_witness :
    place_limit_buy (1 / 2) 1 = some { price := 1 / 2, size := 5 } := by
  have h := c8_amended.2 (1 / 2) 1 (by norm_num) (by norm_num)
  rw [h]
  norm_num [ place_limit_buy_size, ceil100, round2, ifloor_eq, iceil_as_floor]

/-- C10 counterexample: requested price 0.014 with spend 1 dollar: the size is
    75 shares, but the order is submitted at the rounded price 0.01, so the
    committed notional is 0.75 — below the requested spend, not at least 5
    percent above it. -/
theorem c10_counterexample :
    place_limit_buy (7 / 500) 1 = some { price := 1 / 100, size := 75 } ∧
    (75 : ℚ) * (1 / 100) < 1 * (105 / 100) ∧ (75 : ℚ) * (1 / 100) < 1 := by
  refine ⟨by norm_num [place_limit_buy, place_limit_buy_size, ceil100, round2, ifloor_eq, iceil_as_floor], by norm_num, by norm_num⟩

/-- C10 amended: for a requested price lying exactly on the 0.01 tick and
    strictly inside (0, 1), and a nonnegative spend, the submitted size is at
    least 1.05 times spend over price rounded up to the next 0.01 share and is
    further raised so that size * price is at least 1.05 and size is at least
    5; the committed notional size * price is at least 1.05 times the spend
    and strictly exceeds it (never equals it). Off-tick prices lose this
    guarantee because the size is computed from the unrounded price while the
    order is submitted at the rounded one. -/
theorem c10_amended (k : ℕ) (a : ℚ) (hk1 : 1 ≤ k) (hk99 : k ≤ 99) (ha : 0 ≤ a) :
    place_limit_buy ((k : ℚ) / 100) a =
      some { price := (k : ℚ) / 100, size := place_limit_buy_size ((k : ℚ) / 100) a } ∧
    ceil100 (a * (105 / 100) / ((k : ℚ) / 100)) ≤ place_limit_buy_size ((k : ℚ) / 100) a ∧
    (105 / 100) * a ≤ place_limit_buy_size ((k : ℚ) / 100) a * ((k : ℚ) / 100) ∧
    (105 / 100 : ℚ) ≤ place_limit_buy_size ((k : ℚ) / 100) a * ((k : ℚ) / 100) ∧
    (5 : ℚ) ≤ place_limit_buy_size ((k : ℚ) / 100) a ∧
    a < place_limit_buy_size ((k : ℚ) / 100) a * ((k : ℚ) / 100) := by
  have hk1Q : (1 : ℚ) ≤ (k : ℚ) := by exact_mod_cast hk1
  have hk99Q : (k : ℚ) ≤ 99 := by exact_mod_cast hk99
  have hp : (0 : ℚ) < (k : ℚ) / 100 := by positivity
  have spec := place_limit_buy_size_spec ((k : ℚ) / 100) a hp ha
  refine ⟨?_, spec.1, spec.2.1, spec.2.2.1, spec.2.2.2.1, spec.2.2.2.2⟩
  have hr : round2 ((k : ℚ) / 100) = (k : ℚ) / 100 := round2_tick k
  have hno : ¬(round2 ((k : ℚ) / 100) ≤ 0 ∨ round2 ((k : ℚ) / 100) ≥ 1) := by
    rw [hr]
    push_neg
    constructor <;> [positivity; linarith]
  rw [hr] at hno
  simp only [place_limit_buy, hr]
  exact if_neg hno

/-- C10 witness: the amended theorem applied at tick price 0.40 and spend 1
    dollar: the committed notional strictly exceeds the spend. -/
theorem c10_witness :
    (1 : ℚ) < place_limit_buy_size (((40 : ℕ) : ℚ) / 100) 1 * (((40 : ℕ) : ℚ) / 100) :=
  (c10_amended 40 1 (by norm_num) (by norm_num) (by norm_num)).2.2.2.2.2

/-- The fill-check block leaves a session unchanged when the queried status is
    neither matched nor cancelled nor expired. -/
theorem fill_check_other (s : SnipeSession) (statusLower : String) (fm : Option ℚ)
    (h1 : statusLower ≠ "matched") (h2 : statusLower ≠ "cancelled")
    (h3 : statusLower ≠ "expired") : fill_check s statusLower fm = some s := by
  unfold fill_check
  split
  · rw [if_neg (show ¬(statusLower = "cancelled" ∨ statusLower = "expired") by
      rintro (h | h)
      · exact h2 h
      · exact h3 h)]
  · rfl

/-- The fill-check block never touches a session whose order is already
    matched. -/
theorem fill_check_matched (s : SnipeSession) (statusLower : String) (fm : Option ℚ)
    (hs : s.order_status = "matched") : fill_check s statusLower fm = some s := by
  unfold fill_check
  rw [if_neg (show ¬(s.order_id ≠ "" ∧ s.order_status = "live") by
    rintro ⟨-, h⟩
    rw [hs] at h
    exact absurd h (by decide))]

/-- The stop-loss block never fires on an unmatched session. -/
theorem stop_fire_not_matched (s : SnipeSession) (mid : Option ℚ)
    (hs : s.order_status ≠ "matched") : stop_fire s mid = none := by
  unfold stop_fire
  rw [if_neg (show ¬(s.order_status = "matched" ∧ 0 < s.stop_loss_cents ∧ 0 < s.mid_at_fill) by
    rintro ⟨h, -⟩
    exact hs h)]

/-- A _check_session tick on a live (unfilled) order whose status query came
    back with anything other than matched, cancelled or expired: the session is
    cancelled and dropped exactly when the market end time has passed, and is
    left completely unchanged otherwise. -/
theorem check_session_live (h : Bool) (s : SnipeSession) (inp : CheckInputs)
    (hs : s.order_status = "live")
    (h1 : pyLower (inp.status.getD "") ≠ "matched")
    (h2 : pyLower (inp.status.getD "") ≠ "cancelled")
    (h3 : pyLower (inp.status.getD "") ≠ "expired") :
    check_session h s inp =
      if 0 < s.market_end_ts ∧ s.market_end_ts < inp.now then
        (none, noDelta, [Action.cancelOrder s.order_id])
      else (some s, noDelta, []) := by
  have hf := fill_check_other s (pyLower (inp.status.getD "")) inp.fill_mid h1 h2 h3
  have hsf := stop_fire_not_matched s inp.mid (by rw [hs]; decide)
  simp only [check_session, hf, hsf]
  rw [if_neg (show ¬(s.order_status = "matched" ∧ s.market_end_ts > 0 ∧
      inp.now - s.market_end_ts > 15) by
    rintro ⟨hm, -⟩
    rw [hs] at hm
    exact absurd hm (by decide))]
  by_cases hend : 0 < s.market_end_ts ∧ s.market_end_ts < inp.now
  · rw [if_pos ⟨hs, hend.1, hend.2⟩, if_pos hend]
  · rw [if_neg (show ¬(s.order_status = "live" ∧ s.market_end_ts > 0 ∧
        inp.now > s.market_end_ts) by
      rintro ⟨-, hgt, hlt⟩
      exact hend ⟨hgt, hlt⟩), if_neg hend]

/-- A _check_session tick on a matched session before the resolution window,
    with a positive stop distance, a recorded positive mid at fill and a
    positive current mid m: the stop-loss path runs exactly when the drop from
    the mid at fill reaches the stop distance, market-selling the whole
    position and closing the session; otherwise the tick changes nothing. -/
theorem check_session_stop_eval (h : Bool) (s : SnipeSession) (inp : CheckInputs) (m : ℚ)
    (hst : s.order_status = "matched") (hsl : 0 < s.stop_loss_cents)
    (hbase : 0 < s.mid_at_fill) (hmid : inp.mid = some m) (hm : 0 < m)
    (hres : inp.now - s.market_end_ts ≤ 15) :
    check_session h s inp =
      if (s.stop_loss_cents : ℚ) / 100 ≤ s.mid_at_fill - m then
        (none, (if h then { losses := 1, pnl := m * s.total_shares - s.total_spent } else noDelta),
         Action.marketSell s.token_id s.total_shares ::
           (if h then [Action.saveCfg] else []) ++
           [Action.logTrade "STOP-LOSS" (m * s.total_shares - s.total_spent)])
      else (some s, noDelta, []) := by
  have hf := fill_check_matched s (pyLower (inp.status.getD "")) inp.fill_mid hst
  have hsf : stop_fire s inp.mid =
      if 0 < m ∧ s.mid_at_fill - m ≥ (s.stop_loss_cents : ℚ) / 100 then some m else none := by
    unfold stop_fire
    rw [if_pos ⟨hst, hsl, hbase⟩, hmid]
  simp only [check_session, hf, hsf]
  by_cases hfire : (s.stop_loss_cents : ℚ) / 100 ≤ s.mid_at_fill - m
  · rw [if_pos (⟨hm, hfire⟩ : 0 < m ∧ s.mid_at_fill - m ≥ (s.stop_loss_cents : ℚ) / 100),
      if_pos hfire]
  · rw [if_neg (show ¬(0 < m ∧ s.mid_at_fill - m ≥ (s.stop_loss_cents : ℚ) / 100) by
      rintro ⟨-, hge⟩
      exact hfire hge)]
    rw [if_neg (show ¬(s.order_status = "matched" ∧ s.market_end_ts > 0 ∧
        inp.now - s.market_end_ts > 15) by
      rintro ⟨-, -, hgt⟩
      omega)]
    rw [if_neg (show ¬(s.order_status = "live" ∧ s.market_end_ts > 0 ∧
        inp.now > s.market_end_ts) by
      rintro ⟨hlive, -⟩
      rw [hst] at hlive
      exact absurd hlive (by decide))]
    rw [if_neg hfire]


/-- C9: a failed order-status query (None from check_order_status) is handled
    identically to a live order: the whole tick computes exactly the same
    result as when the gateway had answered live, and when the market has not
    yet ended the tick leaves the session untouched, to be retried next tick;
    the failure is never interpreted as cancelled, unfilled or any definitive
    negative result. -/
theorem c9_unknown_status :
    (∀ (h : Bool) (s : SnipeSession) (now : ℤ) (fm mid : Option ℚ)
      (mk : Option GammaMarket) (cd : Option (ℚ × ℚ)),
      check_session h s
        { now := now, status := none, fill_mid := fm, mid := mid, market := mk, candle := cd } =
      check_session h s
        { now := now, status := some "live", fill_mid := fm, mid := mid, market := mk,
          candle := cd }) ∧
    (∀ (h : Bool) (s : SnipeSession) (inp : CheckInputs),
      s.order_status = "live" → inp.status = none → inp.now ≤ s.market_end_ts →
      check_session h s inp = (some s, noDelta, [])) := by
  constructor
  · intro h s now fm mid mk cd
    simp only [check_session]
    rw [show pyLower ((none : Option String).getD "") = "" from by decide,
      show pyLower ((some "live" : Option String).getD "") = "live" from by decide,
      fill_check_other s "" fm (by decide) (by decide) (by decide),
      fill_check_other s "live" fm (by decide) (by decide) (by decide)]
  · intro h s inp hs hstat hend
    rw [check_session_live h s inp hs (by rw [hstat]; decide) (by rw [hstat]; decide)
      (by rw [hstat]; decide)]
    rw [if_neg (show ¬(0 < s.market_end_ts ∧ s.market_end_ts < inp.now) by
      rintro ⟨-, hlt⟩
      omega)]

/-- C9 witness: the claim theorem applied to a concrete live session, 10
    minutes before market end, with a failed status query. -/
theorem c9_witness :
    check_session true sessC9
      { now := 1400, status := none, fill_mid := none, mid := none, market := none,
        candle := none } = (some sessC9, noDelta, []) :=
  c9_unknown_status.2 true sessC9 _ rfl rfl (by decide)

/-- C2 counterexample: a session whose limit order was placed and filled at
    entry price 0.85 recorded a mid at fill of 0.55 with stop distance 0.10.
    The claim says the stop fires exactly when the price drops the stop
    distance below the fill price, at 0.75, and that a target trigger exists
    at fill + 0.10; the code does nothing at mid 0.75 and at mid 0.65, and
    fires only at 0.45, the mid at fill minus the distance. -/
theorem c2_counterexample :
    check_session true sessC2 (inpC2 (75 / 100)) = (some sessC2, noDelta, []) ∧
    check_session true sessC2 (inpC2 (65 / 100)) = (some sessC2, noDelta, []) ∧
    check_session true sessC2 (inpC2 (45 / 100)) =
      (none, { losses := 1, pnl := 45 / 100 * (118 / 100) - 1 },
       [Action.marketSell "t2" (118 / 100), Action.saveCfg,
        Action.logTrade "STOP-LOSS" (45 / 100 * (118 / 100) - 1)]) ∧
    sessC2.entry_price - 10 / 100 = 75 / 100 ∧
    sessC2.mid_at_fill - 10 / 100 = 45 / 100 := by
  refine ⟨?_, ?_, ?_, by norm_num [sessC2], by norm_num [sessC2]⟩
  · simp [check_session, fill_check, stop_fire, sessC2, inpC2, noDelta,
      show pyLower "" = "" from by decide]
    norm_num
  · simp [check_session, fill_check, stop_fire, sessC2, inpC2, noDelta,
      show pyLower "" = "" from by decide]
    norm_num
  · simp [check_session, fill_check, stop_fire, sessC2, inpC2, noDelta,
      show pyLower "" = "" from by decide]
    norm_num

/-- C2 amended: the stop-loss baseline is the mid price sampled at fill time
    (mid_at_fill), not the requested or assumed fill price: on a matched
    session, before the resolution window, with positive stop distance,
    recorded baseline and current mid, the position is market-sold exactly
    when the current mid has dropped stop_loss_cents/100 below the mid at
    fill; otherwise the tick changes nothing (in particular there is no
    profit-target trigger: any high mid leaves the session held to
    resolution); and the stats update and actions of the tick do not depend on
    the entry price at all. -/
theorem c2_amended (h : Bool) (s : SnipeSession) (inp : CheckInputs) (m : ℚ)
    (hst : s.order_status = "matched") (hsl : 0 < s.stop_loss_cents)
    (hbase : 0 < s.mid_at_fill) (hmid : inp.mid = some m) (hm : 0 < m)
    (hres : inp.now - s.market_end_ts ≤ 15) :
    ((s.stop_loss_cents : ℚ) / 100 ≤ s.mid_at_fill - m →
      check_session h s inp =
        (none, (if h then { losses := 1, pnl := m * s.total_shares - s.total_spent } else noDelta),
         Action.marketSell s.token_id s.total_shares ::
           (if h then [Action.saveCfg] else []) ++
           [Action.logTrade "STOP-LOSS" (m * s.total_shares - s.total_spent)])) ∧
    (s.mid_at_fill - m < (s.stop_loss_cents : ℚ) / 100 →
      check_session h s inp = (some s, noDelta, [])) ∧
    (∀ p : ℚ,
      (check_session h { s with entry_price := p } inp).2 = (check_session h s inp).2) := by
  refine ⟨?_, ?_, ?_⟩
  · intro hf
    rw [check_session_stop_eval h s inp m hst hsl hbase hmid hm hres, if_pos hf]
  · intro hnf
    rw [check_session_stop_eval h s inp m hst hsl hbase hmid hm hres, if_neg (by linarith)]
  · intro p
    rw [check_session_stop_eval h s inp m hst hsl hbase hmid hm hres]
    rw [check_session_stop_eval h { s with entry_price := p } inp m hst hsl hbase hmid hm hres]
    split <;> rfl

/-- C2 witness: the amended theorem applied to the concrete session filled with
    baseline mid 0.55 and stop distance 10 cents, at current mid 0.45. -/
theorem c2_witness :
    check_session true sessC2 (inpC2 (45 / 100)) =
      (none, { losses := 1, pnl := 45 / 100 * sessC2.total_shares - sessC2.total_spent },
       Action.marketSell sessC2.token_id sessC2.total_shares ::
         [Action.saveCfg] ++
         [Action.logTrade "STOP-LOSS" (45 / 100 * sessC2.total_shares - sessC2.total_spent)]) := by
  have h := c2_amended true sessC2 (inpC2 (45 / 100)) (45 / 100) rfl (by decide) (by norm_num [sessC2])
    rfl (by norm_num) (by decide)
  exact h.1 (by norm_num [sessC2])

/-- C5 counterexample: an entry order submitted at time 0 and still unfilled at
    time 1400 — far past any plausible entry timeout, with the market still
    600 seconds (10 minutes) from its end at 2000 — is left untouched by the
    tick: no cancel call is made and the session is not aborted. The same
    holds at time 1990, 10 seconds before close, inside any close-safety
    window. The code only cancels after the market end has passed. -/
theorem c5_counterexample :
    check_session true sessC5 (inpC5 1400) = (some sessC5, noDelta, []) ∧
    check_session true sessC5 (inpC5 1990) = (some sessC5, noDelta, []) ∧
    sessC5.market_end_ts - 1400 = 600 ∧ (1400 : ℤ) - sessC5.started_at = 1400 := by
  refine ⟨?_, ?_, by decide, by decide⟩
  · rw [check_session_live true sessC5 (inpC5 1400) rfl (by decide) (by decide) (by decide)]
    rw [if_neg (by decide)]
  · rw [check_session_live true sessC5 (inpC5 1990) rfl (by decide) (by decide) (by decide)]
    rw [if_neg (by decide)]

/-- C5 amended: an unfilled entry order is cancelled only once the market end
    time has passed — the sniper cancels when now exceeds market_end_ts, the
    adaptive strategy when now exceeds market_end_ts + 30 — and then the tick
    issues exactly one cancel call and drops the position; there is no
    separate entry timeout before close and no close-safety-window early
    cancellation. -/
theorem c5_amended :
    (∀ (h : Bool) (s : SnipeSession) (inp : CheckInputs),
      s.order_status = "live" →
      pyLower (inp.status.getD "") ≠ "matched" →
      pyLower (inp.status.getD "") ≠ "cancelled" →
      pyLower (inp.status.getD "") ≠ "expired" →
      0 < s.market_end_ts → s.market_end_ts < inp.now →
      check_session h s inp = (none, noDelta, [Action.cancelOrder s.order_id])) ∧
    (∀ (t : ActiveTrade) (inp : AdaptiveInputs),
      t.order_status = "live" →
      pyLower (inp.status.getD "") ≠ "matched" →
      t.market_end_ts + 30 < inp.now →
      check_active_trade t inp = (none, noDelta, [Action.cancelOrder t.order_id])) := by
  constructor
  · intro h s inp hs h1 h2 h3 hend hlt
    rw [check_session_live h s inp hs h1 h2 h3, if_pos ⟨hend, hlt⟩]
  · intro t inp ht h1 hlt
    unfold check_active_trade
    rw [if_pos ht, if_neg h1, if_pos (by omega)]

/-- C5 witness: the amended theorem applied to concrete unfilled orders one
    tick after their markets ended. -/
theorem c5_witness :
    check_session true sessC5 (inpC5 2001) = (none, noDelta, [Action.cancelOrder "o5"]) ∧
    check_active_trade tradeC5
      { now := 2031, status := some "live", mid := none, apiRes := none, candle := none } =
      (none, noDelta, [Action.cancelOrder "o5a"]) := by
  constructor
  · exact c5_amended.1 true sessC5 (inpC5 2001) rfl (by decide) (by decide) (by decide)
      (by decide) (by decide)
  · exact c5_amended.2 tradeC5 _ rfl (by decide) (by decide)

/-- The stop-loss block does nothing when the midprice query failed. -/
theorem stop_fire_no_mid (s : SnipeSession) : stop_fire s none = none := by
  unfold stop_fire
  split
  · rfl
  · rfl


/-- A _check_session tick on a matched session inside the resolution window
    whose cascade produced a result settles the position: stats updated by a
    win or a loss, config saved when an owning sniper exists, one trade row
    logged, session removed. -/
theorem check_session_resolution (h : Bool) (s : SnipeSession) (inp : CheckInputs)
    (rwv : String × Bool × Via)
    (hst : s.order_status = "matched") (hmid : inp.mid = none)
    (hend : 0 < s.market_end_ts) (h15 : 15 < inp.now - s.market_end_ts)
    (hres : resolve_session s.outcome (inp.now - s.market_end_ts) inp.market inp.candle =
      some rwv) :
    check_session h s inp =
      (none,
       (if h then
          { wins := if rwv.2.1 then 1 else 0, losses := if rwv.2.1 then 0 else 1,
            pnl := if rwv.2.1 then s.total_shares * 1 - s.total_spent else -s.total_spent }
        else noDelta),
       (if h then [Action.saveCfg] else []) ++
         [Action.logTrade (if rwv.2.1 then "WIN" else "LOSS")
           (if rwv.2.1 then s.total_shares * 1 - s.total_spent else -s.total_spent)]) := by
  have hf := fill_check_matched s (pyLower (inp.status.getD "")) inp.fill_mid hst
  have hsf : stop_fire s inp.mid = none := by
    rw [hmid, stop_fire_no_mid]
  simp only [check_session, hf, hsf]
  rw [if_pos ⟨hst, hend, h15⟩, hres]


/-- C3: the reconciliation cascade consults evidence sources in strict
    priority order. Sniper (resolve_session): a closed market with a declared
    outcome from the authoritative query is used immediately, tagged API,
    regardless of any fallback kline; with no authoritative outcome, past the
    120-second grace period, an available settlement kline resolves via BTC;
    and the TIMEOUT tag arises only when the authoritative source produced
    nothing, the fallback produced nothing (absent kline or still inside the
    grace period), and more than 600 seconds have passed. Adaptive
    (resolveAdaptive): same order with resolutions p1/p2 and the literal
    timeout marker only after 600 seconds. -/
theorem c3_reconciliation_priority :
    (∀ (out : String) (tse : ℤ) (mk : Option GammaMarket) (cd : Option (ℚ × ℚ)) (r : String),
      api_outcome mk = some r →
      resolve_session out tse mk cd = some (r, check_win out r, Via.api)) ∧
    (∀ (out : String) (tse : ℤ) (mk : Option GammaMarket) (o c : ℚ),
      api_outcome mk = none → 120 < tse →
      resolve_session out tse mk (some (o, c)) =
        some (btc_dir o c, check_win out (btc_dir o c), Via.btc)) ∧
    (∀ (out : String) (tse : ℤ) (mk : Option GammaMarket) (cd : Option (ℚ × ℚ))
      (r : String) (w : Bool),
      resolve_session out tse mk cd = some (r, w, Via.timeout) →
      api_outcome mk = none ∧ (cd = none ∨ tse ≤ 120) ∧ 600 < tse ∧ r = out ∧ w = true) ∧
    (∀ (tse : ℤ) (cd : Option (ℚ × ℚ)) (r : String),
      r ≠ "" → resolveAdaptive tse (some r) cd = some r) ∧
    (∀ (tse : ℤ) (o c : ℚ), 120 < tse →
      resolveAdaptive tse none (some (o, c)) = some (if c > o then "p1" else "p2")) ∧
    (∀ tse : ℤ, tse ≤ 600 → resolveAdaptive tse none none = none) := by
  refine ⟨?_, ?_, ?_, ?_, ?_, ?_⟩
  · intro out tse mk cd r hapi
    simp only [resolve_session, hapi]
  · intro out tse mk o c hapi htse
    simp only [resolve_session, hapi]
    rw [if_pos htse]
  · intro out tse mk cd r w hres
    rcases hapi : api_outcome mk with _ | r'
    · simp only [resolve_session, hapi] at hres
      by_cases h120 : tse > 120 <;> by_cases h600 : tse > 600 <;> rcases cd with _ | ⟨o, c⟩
      all_goals simp [h120, h600] at hres
      all_goals exact ⟨rfl, by first | exact Or.inl rfl | exact Or.inr (by omega), h600,
        hres.1.symm, hres.2⟩
    · simp [resolve_session, hapi] at hres
  · intro tse cd r hr
    simp [resolveAdaptive, hr]
  · intro tse o c htse
    simp [resolveAdaptive, htse]
  · intro tse h600
    simp [resolveAdaptive, show ¬tse > 600 by omega]



/-- The adaptive win test rejects the literal timeout resolution for every
    direction, so a forced timeout always settles as a loss there. -/
theorem adaptiveWon_timeout (d : String) : adaptiveWon d "timeout" = false := by
  unfold adaptiveWon
  rw [if_neg (by decide), if_neg (by decide)]


/-- C4 amended: when no evidence source yields a resolution within 600
    seconds of market close, the sniper resolves by assuming its held outcome
    won — tagged Via.timeout, distinct in memory from the API and BTC tags —
    but the per-trade record it logs carries the same WIN label and pnl shape
    as an authoritative win; the adaptive strategy instead resolves the
    timed-out trade as a LOSS of its full cost, logged exactly like an
    authoritative loss. Neither sheet record distinguishes the forced path. -/
theorem c4_amended :
    (∀ (out : String) (tse : ℤ) (mk : Option GammaMarket) (cd : Option (ℚ × ℚ)),
      api_outcome mk = none → (cd = none ∨ tse ≤ 120) → 600 < tse →
      resolve_session out tse mk cd = some (out, true, Via.timeout) ∧
      Via.timeout ≠ Via.api ∧ Via.timeout ≠ Via.btc) ∧
    (∀ (h : Bool) (s : SnipeSession) (inp : CheckInputs),
      s.order_status = "matched" → inp.mid = none → inp.market = none → inp.candle = none →
      0 < s.market_end_ts → 600 < inp.now - s.market_end_ts →
      check_session h s inp =
        (none,
         (if h then { wins := 1, pnl := s.total_shares * 1 - s.total_spent } else noDelta),
         (if h then [Action.saveCfg] else []) ++
           [Action.logTrade "WIN" (s.total_shares * 1 - s.total_spent)])) ∧
    (∀ (t : ActiveTrade) (inp : AdaptiveInputs),
      t.order_status = "matched" → inp.apiRes = none → inp.candle = none →
      600 < inp.now - t.market_end_ts →
      check_active_trade t inp =
        (none, { losses := 1, trades := 1, pnl := -t.cost },
         [Action.saveCfg, Action.logTrade "LOSS" (-t.cost)])) := by
  refine ⟨?_, ?_, ?_⟩
  · intro out tse mk cd hapi hcd h600
    refine ⟨?_, by decide, by decide⟩
    rcases hcd with rfl | h120
    · simp [resolve_session, hapi, show tse > 600 from h600]
    · simp [resolve_session, hapi, show ¬tse > 120 by omega, show tse > 600 from h600]
  · intro h s inp hst hmid hmk hcd hend h600
    have hres : resolve_session s.outcome (inp.now - s.market_end_ts) inp.market inp.candle =
        some (s.outcome, true, Via.timeout) := by
      rw [hmk, hcd]
      simp [resolve_session, api_outcome, show inp.now - s.market_end_ts > 600 by omega]
    exact check_session_resolution h s inp (s.outcome, true, Via.timeout) hst hmid hend
      (by omega) hres
  · intro t inp ht hapi hcd h600
    have hres : resolveAdaptive (inp.now - t.market_end_ts) inp.apiRes inp.candle =
        some "timeout" := by
      rw [hapi, hcd]
      simp [resolveAdaptive, show inp.now - t.market_end_ts > 600 by omega,
        show inp.now - t.market_end_ts > 120 by omega]
    simp only [check_active_trade, ht]
    rw [if_neg (by decide), if_pos trivial]
    rw [if_neg (show ¬inp.now < t.market_end_ts + 15 by omega)]
    rw [hres]
    simp [adaptiveWon_timeout]



/-- C4 counterexample: an adaptive trade holding Up with no API resolution
    and no settlement kline 601 seconds after close is settled as a LOSS of
    its full cost — the held outcome is not assumed to have won — and the
    resulting record is identical to the one an authoritative p2 (Down)
    resolution produces 16 seconds after close: the forced path is not
    surfaced distinctly in the record. -/
theorem c4_counterexample :
    check_active_trade tradeC4
      { now := 1601, status := none, mid := none, apiRes := none, candle := none } =
      (none, { losses := 1, trades := 1, pnl := -1 },
       [Action.saveCfg, Action.logTrade "LOSS" (-1)]) ∧
    check_active_trade tradeC4
      { now := 1016, status := none, mid := none, apiRes := some "p2", candle := none } =
      (none, { losses := 1, trades := 1, pnl := -1 },
       [Action.saveCfg, Action.logTrade "LOSS" (-1)]) := by
  constructor
  · simp [check_active_trade, tradeC4, resolveAdaptive, adaptiveWon, noDelta,
      show pyLower "" = "" from by decide]
  · simp [check_active_trade, tradeC4, resolveAdaptive, adaptiveWon, noDelta,
      show pyLower "" = "" from by decide]


/-- C4 witness: the amended theorem applied at concrete inputs: the sniper
    cascade and session 601 seconds past close with no evidence, and the
    adaptive trade in the same situation. -/
theorem c4_witness :
    resolve_session "Up" 601 none none = some ("Up", true, Via.timeout) ∧
    check_session true sessC4
      { now := 1601, status := none, fill_mid := none, mid := none, market := none,
        candle := none } =
      (none, { wins := 1, pnl := sessC4.total_shares * 1 - sessC4.total_spent },
       [Action.saveCfg] ++
         [Action.logTrade "WIN" (sessC4.total_shares * 1 - sessC4.total_spent)]) ∧
    check_active_trade tradeC4
      { now := 1601, status := none, mid := none, apiRes := none, candle := none } =
      (none, { losses := 1, trades := 1, pnl := -tradeC4.cost },
       [Action.saveCfg, Action.logTrade "LOSS" (-tradeC4.cost)]) := by
  refine ⟨?_, ?_, ?_⟩
  · exact (c4_amended.1 "Up" 601 none none rfl (Or.inl rfl) (by decide)).1
  · exact c4_amended.2.1 true sessC4 _ rfl rfl rfl rfl (by decide) (by decide)
  · exact c4_amended.2.2 tradeC4 _ rfl rfl rfl (by decide)


/-- C3 witness: the claim theorem applied at concrete inputs for each
    evidence branch of both strategies. -/
theorem c3_witness :
    resolve_session "Up" 20 (some { closed := true, resolution := "Down" }) (some (100, 200)) =
      some ("Down", false, Via.api) ∧
    resolve_session "Up" 121 none (some (100, 200)) = some ("Up", true, Via.btc) ∧
    resolveAdaptive 10 (some "p1") none = some "p1" ∧
    resolveAdaptive 121 none (some (100, 200)) = some "p1" ∧
    resolveAdaptive 500 none none = none := by
  refine ⟨?_, ?_, ?_, ?_, ?_⟩
  · have h := c3_reconciliation_priority.1 "Up" 20 (some { closed := true, resolution := "Down" })
      (some (100, 200)) "Down" (by decide)
    rw [h]
    decide
  · have h := c3_reconciliation_priority.2.1 "Up" 121 none 100 200 rfl (by decide)
    rw [h]
    norm_num [btc_dir, show check_win "Up" "Up" = true from by decide]
  · exact c3_reconciliation_priority.2.2.2.1 10 none "p1" (by decide)
  · have h := c3_reconciliation_priority.2.2.2.2.1 121 100 200 (by decide)
    rw [h]
    norm_num
  · exact c3_reconciliation_priority.2.2.2.2.2 500 (by decide)


/-- C6 counterexample: a state with one active sniper and one non-terminal
    (matched, active) session: after a restart the recovered state has no
    sessions at all — the snapshot never contained the position, nothing is
    reloaded for it and no gateway query is made — indeed the restart result
    is identical whether or not the session existed. -/
theorem c6_counterexample :
    sessC6.order_status = "matched" ∧ sessC6.active = true ∧
    (restart 5000 { snipers := [autoC6], sessions := [("cid6", sessC6)] }).sessions = [] ∧
    restart 5000 { snipers := [autoC6], sessions := [("cid6", sessC6)] } =
      restart 5000 { snipers := [autoC6], sessions := [] } :=
  ⟨rfl, rfl, rfl, rfl⟩

/-- C6 amended: the persisted snapshot holds, per active strategy instance,
    only its configuration and aggregate stats (with total_pnl rounded to 4
    places); across a save and reload every active sniper reappears with those
    fields intact, fresh runtime fields (no current market, not entered,
    started_at reset to the restore time), and the engine resumes with no
    sessions: open positions are not persisted, not recovered, and no order
    gateway query is made during the restore. -/
theorem c6_amended (st : EngineState) (now : ℤ) (s : AutoSniper)
    (hmem : s ∈ st.snipers) (hact : s.active = true) :
    (∃ s2 ∈ (restart now st).snipers,
      s2.market_type = s.market_type ∧ s2.entry_price = s.entry_price ∧
      s2.size_usdc = s.size_usdc ∧ s2.stop_loss_cents = s.stop_loss_cents ∧
      s2.enter_before_sec = s.enter_before_sec ∧ s2.min_btc_move_pct = s.min_btc_move_pct ∧
      s2.wins = s.wins ∧ s2.losses = s.losses ∧ s2.total_pnl = round4 s.total_pnl ∧
      s2.total_trades = s.total_trades ∧ s2.active = true ∧ s2.current_entered = false ∧
      s2.current_slug = "" ∧ s2.started_at = now) ∧
    (restart now st).sessions = [] := by
  constructor
  · refine ⟨load_sniper now (save_config_row s), ?_,
      rfl, rfl, rfl, rfl, rfl, rfl, rfl, rfl, rfl, rfl, rfl, rfl, rfl, rfl⟩
    simp only [restart, load_saved_snipers, save_config, List.mem_map, List.mem_filter]
    exact ⟨save_config_row s, ⟨s, ⟨hmem, hact⟩, rfl⟩, rfl⟩
  · rfl

/-- C6 witness: the amended theorem applied to the concrete engine state with
    one active sniper and one open session. -/
theorem c6_witness :
    (∃ s2 ∈ (restart 5000 { snipers := [autoC6], sessions := [("cid6", sessC6)] }).snipers,
      s2.market_type = autoC6.market_type ∧ s2.entry_price = autoC6.entry_price ∧
      s2.size_usdc = autoC6.size_usdc ∧ s2.stop_loss_cents = autoC6.stop_loss_cents ∧
      s2.enter_before_sec = autoC6.enter_before_sec ∧
      s2.min_btc_move_pct = autoC6.min_btc_move_pct ∧
      s2.wins = autoC6.wins ∧ s2.losses = autoC6.losses ∧
      s2.total_pnl = round4 autoC6.total_pnl ∧
      s2.total_trades = autoC6.total_trades ∧ s2.active = true ∧
      s2.current_entered = false ∧ s2.current_slug = "" ∧ s2.started_at = 5000) ∧
    (restart 5000 { snipers := [autoC6], sessions := [("cid6", sessC6)] }).sessions = [] :=
  c6_amended { snipers := [autoC6], sessions := [("cid6", sessC6)] } 5000 autoC6
    (by simp) rfl

/-- Rolling to the already-current market is the identity. -/
theorem roll_market_same (auto : AutoSniper) (slug : String) (h : slug = auto.current_slug) :
    roll_market auto slug = auto := by
  unfold roll_market
  rw [if_neg (by simp [h])]

/-- Concrete evaluation of one full tick from the unentered state autoC1: the
    spike fires, place_limit_buy succeeds, and a placeOrder action is emitted,
    yet the returned post-state still has current_entered = false because the
    placement response carried no order id. -/
theorem c1_tick1 : run_auto_sniper autoC1 [] inpC1 =
    ({ autoC1 with current_slug := "btc-updown-15m-1000" }, [],
     [Action.placeOrder "ty" "cid1" (85 / 100) 5]) := by
  simp [run_auto_sniper, sniper_decision, enter_market, roll_market, autoC1, liveC1, inpC1,
    spike_detected, add_skip, place_limit_buy, place_limit_buy_size, ceil100, round2,
    ifloor_eq, iceil_as_floor, dictInsert]
  norm_num [show |(1 : ℚ) / 999| = (1 : ℚ) / 999 from abs_of_pos (by norm_num),
    show (("ty" : String) = "") = False from by simp]

/-- Concrete evaluation of a second tick from the post-state of c1_tick1 with
    identical inputs: the engine submits the same order again. -/
theorem c1_tick2 : run_auto_sniper { autoC1 with current_slug := "btc-updown-15m-1000" } []
    inpC1 =
    ({ autoC1 with current_slug := "btc-updown-15m-1000" }, [],
     [Action.placeOrder "ty" "cid1" (85 / 100) 5]) := by
  simp [run_auto_sniper, sniper_decision, enter_market, roll_market, autoC1, liveC1, inpC1,
    spike_detected, add_skip, place_limit_buy, place_limit_buy_size, ceil100, round2,
    ifloor_eq, iceil_as_floor, dictInsert]
  norm_num [show |(1 : ℚ) / 999| = (1 : ℚ) / 999 from abs_of_pos (by norm_num),
    show (("ty" : String) = "") = False from by simp]

/-- Python dict insertion keeps the keys distinct. -/
theorem dictInsert_keys_nodup (k : String) (v : SnipeSession)
    (d : List (String × SnipeSession)) (h : (d.map Prod.fst).Nodup) :
    ((dictInsert k v d).map Prod.fst).Nodup := by
  unfold dictInsert
  split
  · have e : (d.map (fun p => if p.1 = k then (k, v) else p)).map Prod.fst = d.map Prod.fst := by
      rw [List.map_map]
      apply List.map_congr_left
      intro p hp
      by_cases hk : p.1 = k
      · simp [hk]
      · simp [hk]
    rw [e]
    exact h
  · next hany =>
    rw [List.map_append]
    refine List.Nodup.append h (List.nodup_singleton k) ?_
    intro a ha hb
    rcases List.mem_singleton.mp hb with rfl
    rcases List.mem_map.mp ha with ⟨p, hp, hpk⟩
    exact hany (List.any_eq_true.mpr ⟨p, hp, by simp [hpk]⟩)

/-- On a placement response carrying a non-empty order id, the placement stage
    either made no gateway call (validation failed) or marked the market
    entered. -/
theorem enter_market_marks (auto : AutoSniper) (sess : List (String × SnipeSession))
    (live : LiveMarket) (d t : String) (now : ℤ) (oid : String) (hne : oid ≠ "") :
    (enter_market auto sess live d t now (some oid)).2.2 = [] ∨
      (enter_market auto sess live d t now (some oid)).1.current_entered = true := by
  unfold enter_market
  split
  · exact Or.inl rfl
  · right
    simp only [if_neg hne]

/-- The placement stage preserves distinctness of the session keys. -/
theorem enter_market_nodup (auto : AutoSniper) (sess : List (String × SnipeSession))
    (live : LiveMarket) (d t : String) (now : ℤ) (resp : Option String)
    (h : (sess.map Prod.fst).Nodup) :
    (((enter_market auto sess live d t now resp).2.1).map Prod.fst).Nodup := by
  unfold enter_market
  split
  · exact h
  · rcases resp with _ | oid
    · exact h
    · by_cases ho : oid = ""
      · simp only [if_pos ho]
        exact h
      · simp only [if_neg ho]
        exact dictInsert_keys_nodup _ _ _ h

/-- C1 (amended): the per-market entry latch of _run_auto_sniper, as the code
    actually maintains it. (1) Once current_entered is set, a tick on the same
    still-open market is a complete no-op: no state change, no gateway call.
    (2) current_entered is set only on a placement response carrying a
    non-empty order id; whenever such a response arrives the tick either made
    no gateway call at all or ends with the market marked entered. (3) The
    session dictionary keyed by market id keeps its keys distinct across any
    tick. The mark is NOT taken at submission time: a submission whose
    response is lost (None or empty id) leaves current_entered = false, so the
    next tick resubmits - see c1_counterexample. -/
theorem c1_amended :
    (∀ (auto : AutoSniper) (sess : List (String × SnipeSession)) (inp : TickInputs)
      (lm : LiveMarket),
      auto.active = true → auto.current_entered = true → inp.live = some lm →
      lm.slug = auto.current_slug → 0 < lm.end_ts - inp.now →
      run_auto_sniper auto sess inp = (auto, sess, [])) ∧
    (∀ (auto : AutoSniper) (sess : List (String × SnipeSession)) (inp : TickInputs)
      (oid : String),
      inp.place_resp = some oid → oid ≠ "" →
      (run_auto_sniper auto sess inp).2.2 = [] ∨
        (run_auto_sniper auto sess inp).1.current_entered = true) ∧
    (∀ (auto : AutoSniper) (sess : List (String × SnipeSession)) (inp : TickInputs),
      (sess.map Prod.fst).Nodup →
      (((run_auto_sniper auto sess inp).2.1).map Prod.fst).Nodup) := by
  refine ⟨?_, ?_, ?_⟩
  · intro auto sess inp lm hact hent hlive hslug htl
    simp only [run_auto_sniper, hlive, hact]
    rw [if_neg (by simp)]
    rw [if_neg (show ¬(lm.end_ts - inp.now ≤ 0) by omega)]
    rw [roll_market_same auto lm.slug hslug]
    rw [if_pos hent]
  · intro auto sess inp oid hresp hne
    simp only [run_auto_sniper]
    split
    · exact Or.inl rfl
    · split
      · exact Or.inl rfl
      · split
        · exact Or.inl rfl
        · split
          · exact Or.inl rfl
          · split
            · exact Or.inl rfl
            · split
              · exact Or.inl rfl
              · rw [hresp]
                exact enter_market_marks _ _ _ _ _ _ _ hne
  · intro auto sess inp hnd
    simp only [run_auto_sniper]
    split
    · exact hnd
    · split
      · exact hnd
      · split
        · exact hnd
        · split
          · exact hnd
          · split
            · exact hnd
            · split
              · exact hnd
              · exact enter_market_nodup _ _ _ _ _ _ _ hnd


/-- C1 counterexample: the claim says the sniper marks the market entered "at
    the moment it submits the entry order, so a second tick cannot
    double-enter". Refuted at a concrete input: from autoC1 with inputs inpC1
    (place_limit_buy returns some "" - an order id the gateway failed to
    echo), the first tick emits a placeOrder action but leaves
    current_entered = false, and the second tick on the very same market
    emits the same placeOrder again: a double entry. The mark is taken only
    on a non-empty order id in the response (sniper.py line 985), not at
    submission. -/
theorem c1_counterexample :
    (run_auto_sniper autoC1 [] inpC1).2.2 = [Action.placeOrder "ty" "cid1" (85 / 100) 5] ∧
    (run_auto_sniper autoC1 [] inpC1).1.current_entered = false ∧
    (run_auto_sniper ((run_auto_sniper autoC1 [] inpC1).1) [] inpC1).2.2 =
      [Action.placeOrder "ty" "cid1" (85 / 100) 5] := by
  refine ⟨?_, ?_, ?_⟩
  · rw [c1_tick1]
  · rw [c1_tick1]
    rfl
  · rw [c1_tick1, c1_tick2]

/-- C1 witness: c1_amended applied at concrete inputs - the entered no-op
    tick, the successful-response tick that marks entry, and key-distinctness
    from the empty session table. -/
theorem c1_witness :
    run_auto_sniper
        { autoC1 with current_slug := "btc-updown-15m-1000", current_entered := true } []
        inpC1 =
      ({ autoC1 with current_slug := "btc-updown-15m-1000", current_entered := true }, [],
       []) ∧
    ((run_auto_sniper autoC1 [] { inpC1 with place_resp := some "ord1" }).2.2 = [] ∨
      (run_auto_sniper autoC1 []
          { inpC1 with place_resp := some "ord1" }).1.current_entered = true) ∧
    (((run_auto_sniper autoC1 [] inpC1).2.1).map Prod.fst).Nodup := by
  refine ⟨?_, ?_, ?_⟩
  · exact c1_amended.1 _ [] inpC1 liveC1 rfl rfl rfl rfl (by decide)
  · exact c1_amended.2.1 autoC1 [] _ "ord1" rfl (by decide)
  · exact c1_amended.2.2 autoC1 [] inpC1 (by simp)

end Paulie
